import Mathlib

/-!
Shallow embedding of a browser-based YouTube-script generator:
a prompt builder and multi-provider text dispatcher
(src/components/ai/ScriptGeneratorAPI.ts), its UI caller
(src/components/ScriptGenerator.tsx), and a per-topic image
orchestrator with heuristic topic extraction (an unnamed component
file with extractTopics, generateOne, generateAll).

Strings are modelled as Lean Strings (lists of Unicode scalar values);
the orchestrator source file is stored with mojibake (for example the
bytes rendering as the three characters sqrt, gteq, pound stand where
accented letters were intended), and the embedding reproduces those
literal code points exactly, written below with escape sequences.
Network effects are modelled by passing an explicit oracle function
and returning the list of issued requests.
-/

/-! ## Generic string machinery -/

/-- Boolean test: pat is a prefix of hay (character lists). -/
def startsWithL : List Char → List Char → Bool
  | _, [] => true
  | [], _ :: _ => false
  | b :: hs, a :: ps => a == b && startsWithL hs ps

/-- Boolean test: pat occurs as a contiguous substring of hay. -/
def hasSubstr (hay pat : List Char) : Bool :=
  match hay with
  | [] => pat.isEmpty
  | _ :: t => startsWithL hay pat || hasSubstr t pat

/-- Substring containment on strings, as a proposition. -/
def containsStr (s pat : String) : Prop := hasSubstr s.data pat.data = true

instance (s pat : String) : Decidable (containsStr s pat) := by
  unfold containsStr; infer_instance

/-! ## Prompt Builder and Provider Dispatcher data model
(src/components/ai/ScriptGeneratorAPI.ts) -/

/-- The form record collected by the UI (fields as used by the source;
the type declaration itself lives in the absent types/ai-providers.ts,
but every field and its string type is fixed by the two source files). -/
structure ScriptData where
  topic : String
  duration : String
  style : String
  styleKeywords : String
  language : String
  audience : String
  additionalInfo : String
deriving DecidableEq

/-- JS `s || d` on strings: the empty string is the only falsy string. -/
def jsOr (s d : String) : String := if s = "" then d else s

/-- Template text of buildPrompt before the topic interpolation. -/
def promptChunk1 : String :=
  "\nCrie um roteiro detalhado para um vídeo do YouTube com as seguintes especificações:\n\n**Tópico:** "

/-- Template text between the topic and duration interpolations. -/
def promptChunk2 : String := "\n**Duração:** "

/-- Template text between the duration and style interpolations. -/
def promptChunk3 : String := " minutos\n**Estilo:** "

/-- Template text between the style and audience interpolations. -/
def promptChunk4 : String := "\n**Público-alvo:** "

/-- Template text between the audience and additionalInfo interpolations. -/
def promptChunk5 : String := "\n**Informações adicionais:** "

/-- Template text after the additionalInfo interpolation. -/
def promptTail : String :=
  "\n\nO roteiro deve incluir:\n1. Hook inicial (primeiros 15 segundos)\n2. Introdução e apresentação do problema/tópico\n3. Desenvolvimento do conteúdo principal (dividido em seções)\n4. Call-to-action para inscrição e likes\n5. Conclusão e próximos passos\n6. Outro (final do vídeo)\n\nFormate o roteiro de forma clara, com indicações de tempo aproximado para cada seção.\nUse uma linguagem envolvente e adequada para YouTube.\nInclua sugestões de elementos visuais quando relevante.\n"

/-- ScriptGeneratorAPI.buildPrompt: the template literal of the source,
with the five interpolation points; audience and additionalInfo default
via JS `||`. styleKeywords and language are not referenced by the
template. -/
def buildPrompt (sd : ScriptData) : String :=
  promptChunk1 ++ sd.topic ++ promptChunk2 ++ sd.duration ++ promptChunk3 ++ sd.style ++
    promptChunk4 ++ jsOr sd.audience "Geral" ++ promptChunk5 ++
    jsOr sd.additionalInfo "Nenhuma" ++ promptTail

/-- The six section labels requested by the prompt template (source
lines 34 to 39 of ScriptGeneratorAPI.ts). -/
def sectionLabels : List String :=
  ["Hook inicial", "Introdução", "Desenvolvimento do conteúdo principal",
   "Call-to-action", "Conclusão", "Outro"]

/-! ## Topic extraction (extractTopics in the orchestrator source file)

The source file is stored with mojibake, so the keyword regex character
classes literally contain the code points U+221A, U+2265, U+2260, U+00DF,
U+00A3 in place of the intended accented letters; the embedding keeps
them exactly as they appear in the file. -/

/-- The JS regex \s character class, which is also the character set
removed by String.prototype.trim. -/
def jsWs (c : Char) : Bool :=
  c == '\t' || c == '\n' || c == '\x0b' || c == '\x0c' || c == '\r' || c == ' ' ||
  c == ' ' || c == ' ' || (0x2000 ≤ c.toNat && c.toNat ≤ 0x200A) ||
  c == ' ' || c == ' ' || c == ' ' || c == ' ' ||
  c == '　' || c == '﻿'

/-- JS String.prototype.trim on a character list. -/
def jsTrim (l : List Char) : List Char :=
  ((l.dropWhile jsWs).reverse.dropWhile jsWs).reverse

/-- JS String.prototype.trim on a String. -/
def jsTrimStr (s : String) : String := String.mk (jsTrim s.data)

/-- Prepend a character to the first piece of a split result. -/
def consHead (c : Char) : List (List Char) → List (List Char)
  | [] => [[c]]
  | p :: ps => (c :: p) :: ps

/-- Split at every newline character (the pieces still carry any
carriage return that preceded the newline). -/
def splitOnNl : List Char → List (List Char)
  | [] => [[]]
  | c :: rest =>
    if c == '\n' then [] :: splitOnNl rest else consHead c (splitOnNl rest)

/-- Remove one trailing carriage return, if present. -/
def dropTrailingCR (l : List Char) : List Char :=
  if l.getLast? = some '\r' then l.dropLast else l

/-- JS script.split of the regex matching an optional carriage return
followed by a newline. -/
def jsLines (s : List Char) : List (List Char) := (splitOnNl s).map dropTrailingCR

/-- Markdown-heading test of extractTopics: one to six hash marks
followed by at least one whitespace character; returns the text after
the hash marks (still to be trimmed), or none. -/
def headingRest (l : List Char) : Option (List Char) :=
  let k := (l.takeWhile (fun c => c == '#')).length
  if 1 ≤ k ∧ k ≤ 6 then
    match l.drop k with
    | c :: rest => if jsWs c then some (c :: rest) else none
    | [] => none
  else none

/-- Numbered-item test of extractTopics: digits, then one character of
the class containing a period, a vertical bar and a closing bracket,
then at least one whitespace character; returns the remainder after the
punctuation character. -/
def numberedRest (l : List Char) : Option (List Char) :=
  let d := (l.takeWhile Char.isDigit).length
  if 1 ≤ d then
    match l.drop d with
    | p :: rest =>
      if p == '.' || p == '|' || p == ')' then
        match rest with
        | c :: _ => if jsWs c then some rest else none
        | [] => none
      else none
    | [] => none
  else none

/-- Match a sequence of character classes at the front of a list,
folding input characters with Char.toLower: the case-insensitive flag of
the source regex only has an effect on ASCII letters here, because the
non-ASCII code points appearing in the classes have no single-character
case mapping. Returns the remainder. -/
def matchClasses : List (List Char) → List Char → Option (List Char)
  | [], rest => some rest
  | _ :: _, [] => none
  | cls :: ps, c :: rest =>
    if cls.contains c.toLower then matchClasses ps rest else none

/-- First keyword alternative of the section-label regex, with its
mojibake class: t, then one of U+221A or U+2265 or o, then pico. -/
def kwTopico : List (List Char) :=
  [['t'], ['√', '≥', 'o'], ['p'], ['i'], ['c'], ['o']]

/-- Second keyword alternative: s, e, then one of c or U+221A or U+00DF,
then one of a or U+221A or U+00A3, then o. -/
def kwSecao : List (List Char) :=
  [['s'], ['e'], ['c', '√', 'ß'], ['a', '√', '£'], ['o']]

/-- Third keyword alternative: cap, then one of U+221A or U+2260 or i,
then tulo. -/
def kwCapitulo : List (List Char) :=
  [['c'], ['a'], ['p'], ['√', '≠', 'i'], ['t'], ['u'], ['l'], ['o']]

/-- Fourth keyword alternative: parte. -/
def kwParte : List (List Char) :=
  [['p'], ['a'], ['r'], ['t'], ['e']]

/-- The keyword alternation. The four alternatives start with pairwise
distinct letters, so the match is unambiguous. -/
def kwAlt (l : List Char) : Option (List Char) :=
  match matchClasses kwTopico l with
  | some r => some r
  | none =>
    match matchClasses kwSecao l with
    | some r => some r
    | none =>
      match matchClasses kwCapitulo l with
      | some r => some r
      | none => matchClasses kwParte l

/-- Labeled-line test of extractTopics: a keyword alternative, then a
colon or hyphen, then at least one whitespace character; returns the
remainder after the punctuation character. -/
def keywordRest (l : List Char) : Option (List Char) :=
  match kwAlt l with
  | some (p :: c :: rest) =>
    if (p == ':' || p == '-') && jsWs c then some (c :: rest) else none
  | _ => none

/-- Push a candidate topic: kept only when longer than three characters
and not seen before; the JS code maintains the seen set alongside the
topics array, and the accumulator carries both. -/
def addTopic (acc : List (List Char) × List (List Char)) (t : List Char) :
    List (List Char) × List (List Char) :=
  if 3 < t.length ∧ t ∉ acc.2 then (acc.1 ++ [t], acc.2 ++ [t]) else acc

/-- One iteration of the line loop of extractTopics. -/
def processLine (acc : List (List Char) × List (List Char)) (raw : List Char) :
    List (List Char) × List (List Char) :=
  let line := jsTrim raw
  if line = [] then acc
  else
    match headingRest line with
    | some r => addTopic acc (jsTrim r)
    | none =>
      match numberedRest line with
      | some r => addTopic acc (jsTrim r)
      | none =>
        match keywordRest line with
        | some r => addTopic acc (jsTrim r)
        | none => acc

/-- Index of the last newline in a list, if any. -/
def lastNlIdx : List Char → Option Nat
  | [] => none
  | c :: rest =>
    match lastNlIdx rest with
    | some j => some (j + 1)
    | none => if c == '\n' then some 0 else none

/-- JS script.split on the blank-line regex (newline, any whitespace,
newline): a separator starts at a newline whose following whitespace run
contains another newline, and the greedy quantifier extends the
separator to the last newline of that run. -/
def splitParas : List Char → List (List Char)
  | [] => [[]]
  | c :: rest =>
    if c == '\n' then
      match lastNlIdx (rest.takeWhile jsWs) with
      | some j => [] :: splitParas (rest.drop (j + 1))
      | none => consHead '\n' (splitParas rest)
    else consHead c (splitParas rest)
termination_by l => l.length
decreasing_by
  · simp [List.length_drop]; omega
  · simp
  · simp

/-- One iteration of the fallback loop of extractTopics: the first
sentence of a paragraph (text before a period, exclamation or question
mark), cut to ninety characters and trimmed. -/
def fallbackAdd (acc : List (List Char) × List (List Char)) (p : List Char) :
    List (List Char) × List (List Char) :=
  addTopic acc (jsTrim ((p.takeWhile (fun c => !(c == '.' || c == '!' || c == '?'))).take 90))

/-- extractTopics on a character list: the line loop, the paragraph
fallback when the line loop produced nothing, and the cap at twenty. -/
def extractTopicsL (script : List Char) : List (List Char) :=
  let acc := (jsLines script).foldl processLine ([], [])
  let acc2 :=
    if acc.1 = [] then
      ((((splitParas script).map jsTrim).filter (fun p => !p.isEmpty)).take 6).foldl
        fallbackAdd acc
    else acc
  acc2.1.take 20

/-- extractTopics of the orchestrator source: empty input short-circuits
to the empty list (the JS falsy test on the string). -/
def extractTopics (script : String) : List String :=
  if script = "" then [] else (extractTopicsL script.data).map (fun t => String.mk t)

/-! ## Per-topic image orchestrator
(state and handlers of the unnamed component file) -/

/-- One per-topic record of the orchestrator. The JS optional fields
loading and error are a possibly-absent boolean (absent treated as
false everywhere it is read) and a possibly-absent string. -/
structure TopicItem where
  id : String
  title : String
  prompt : String
  imageUrl : Option String
  loading : Bool
  error : Option String
deriving DecidableEq

/-- The two image providers selectable in the orchestrator UI. -/
inductive ImgProvider where
  | leonardo
  | kling
deriving DecidableEq

/-- Observable effects of an orchestrator handler, in emission order. -/
inductive ImgEvent where
  | toast (title description : String) (destructive : Bool)
  | openModal (modalProvider : ImgProvider)
  | netCall (key promptText : String)
deriving DecidableEq

/-- The items initialized when the script changes: one record per
extracted topic, id topic-index, prompt seeded from the title. -/
def initItems (topics : List String) : List TopicItem :=
  topics.enum.map (fun p =>
    { id := "topic-" ++ toString p.1, title := p.2, prompt := p.2,
      imageUrl := none, loading := false, error := none })

/-- handlePromptChange: replace the prompt of the item with the given
id. -/
def editPrompt (items : List TopicItem) (id p : String) : List TopicItem :=
  items.map (fun it => if it.id = id then { it with prompt := p } else it)

/-- The state update at the start of a generation attempt: loading set
and error cleared, in the same functional update. -/
def startGen (items : List TopicItem) (id : String) : List TopicItem :=
  items.map (fun it => if it.id = id then { it with loading := true, error := none } else it)

/-- JS `e?.message || "Erro"`: an empty (or absent) message falls back
to the literal Erro. -/
def errMsg (m : String) : String := if m = "" then "Erro" else m

/-- The state update at the end of a generation attempt: on success the
image URL is stored and loading cleared (the spread keeps the other
fields); on failure loading is cleared and the message stored (the
spread keeps imageUrl as it was). -/
def finishGen (items : List TopicItem) (id : String) (r : Except String String) :
    List TopicItem :=
  items.map (fun it =>
    if it.id = id then
      match r with
      | Except.ok url => { it with imageUrl := some url, loading := false }
      | Except.error e => { it with loading := false, error := some (errMsg e) }
    else it)

/-- localStorage key name per image provider (from the two provider
descriptors of the component). -/
def keyNameOf (p : ImgProvider) : String :=
  if p = ImgProvider.leonardo then "leonardo_api_key" else "kling_api_key"

/-- The destructive toast text of generateOne for the stub provider
(literal mojibake code points of the source file). -/
def klingToastOne : String :=
  "Integra√ß√£o em breve. Forne√ßa endpoint/documenta√ß√£o para habilitar."

/-- The destructive toast text of generateAll for the stub provider. -/
def klingToastAll : String := "Integra√ß√£o em breve."

/-- ensureKey: read the credential; when absent, open the provider
modal and toast, returning no key. -/
def ensureKey (store : String → Option String) (prov : ImgProvider) :
    Option String × List ImgEvent :=
  match store (keyNameOf prov) with
  | none =>
    (none,
     [ImgEvent.openModal prov,
      ImgEvent.toast "API key necess√°ria"
        ("Configure a API do " ++
          (if prov = ImgProvider.leonardo then "Leonardo" else "Kling") ++ ".") false])
  | some k => (some k, [])

/-- generateOne as invoked with a state snapshot: the item lookup and
the dispatched prompt use the snapshot captured by the closure, while
the functional setItems updates apply to the current state (the two
coincide for a direct button click, but differ inside the generateAll
loop). The oracle stands for generateLeonardoImage: it returns the image
URL or the thrown error message. -/
def generateOneOn (store : String → Option String)
    (oracle : String → String → Except String String) (provider : ImgProvider)
    (snapshot state : List TopicItem) (id : String) :
    List TopicItem × List ImgEvent :=
  match snapshot.find? (fun it => it.id == id) with
  | none => (state, [])
  | some item =>
    if provider = ImgProvider.kling then
      (state, [ImgEvent.toast "Kling AI" klingToastOne true])
    else
      match ensureKey store ImgProvider.leonardo with
      | (none, evs) => (state, evs)
      | (some key, _) =>
        let s1 := startGen state id
        match oracle key item.prompt with
        | Except.ok url =>
          (finishGen s1 id (Except.ok url),
           [ImgEvent.netCall key item.prompt, ImgEvent.toast "Imagem gerada" item.title false])
        | Except.error e =>
          (finishGen s1 id (Except.error e),
           [ImgEvent.netCall key item.prompt,
            ImgEvent.toast "Falha ao gerar imagem" (errMsg e) true])

/-- generateOne triggered directly (snapshot and state coincide). -/
def generateOne (store : String → Option String)
    (oracle : String → String → Except String String) (provider : ImgProvider)
    (items : List TopicItem) (id : String) : List TopicItem × List ImgEvent :=
  generateOneOn store oracle provider items items id

/-- The sequential loop of generateAll over the snapshot list: items
already holding an image URL are skipped, the others are handed to
generateOne one at a time, each await completing before the next starts. -/
def generateAllGo (store : String → Option String)
    (oracle : String → String → Except String String) (snapshot : List TopicItem) :
    List TopicItem → List TopicItem → List TopicItem × List ImgEvent
  | [], state => (state, [])
  | it :: rest, state =>
    if it.imageUrl.isSome then generateAllGo store oracle snapshot rest state
    else
      let r1 := generateOneOn store oracle ImgProvider.leonardo snapshot state it.id
      let r2 := generateAllGo store oracle snapshot rest r1.1
      (r2.1, r1.2 ++ r2.2)

/-- generateAll: stub-provider early return, credential check, then the
sequential loop (inside which the selected provider is leonardo). -/
def generateAll (store : String → Option String)
    (oracle : String → String → Except String String) (provider : ImgProvider)
    (items : List TopicItem) : List TopicItem × List ImgEvent :=
  if provider = ImgProvider.kling then
    (items, [ImgEvent.toast "Kling AI" klingToastAll true])
  else
    match ensureKey store ImgProvider.leonardo with
    | (none, evs) => (items, evs)
    | (some _, _) => generateAllGo store oracle items items items

/-- The item states reachable by the orchestrator: initialization from
extracted topics, prompt edits, and the two setItems updates performed
by a generation attempt (the intermediate loading state is observable
while the call is awaited). -/
inductive Reach : List TopicItem → Prop where
  | init (topics : List String) : Reach (initItems topics)
  | edit (s : List TopicItem) (id p : String) : Reach s → Reach (editPrompt s id p)
  | start (s : List TopicItem) (id : String) : Reach s → Reach (startGen s id)
  | finish (s : List TopicItem) (id : String) (r : Except String String) :
      Reach s → Reach (finishGen s id r)

/-! ## Provider Dispatcher (ScriptGeneratorAPI.generateScript and the
five adapters) and its UI caller (ScriptGenerator.generateScript) -/

/-- Minimal JSON values: numeric literals are kept as their source text,
since no claim observes them numerically. -/
inductive Json where
  | null
  | bool (b : Bool)
  | num (lit : String)
  | str (s : String)
  | arr (elems : List Json)
  | obj (fields : List (String × Json))

/-- An outbound fetch request as assembled by an adapter. -/
structure HttpRequest where
  url : String
  method : String
  headers : List (String × String)
  body : Json

/-- A fetch response: the ok flag and the parsed JSON body. -/
structure HttpResponse where
  ok : Bool
  body : Json

/-- A failure escaping an adapter: an explicitly thrown Error message,
or the unstructured runtime failure from unwrapping a malformed body. -/
inductive ApiError where
  | thrown (msg : String)
  | malformed
deriving DecidableEq

/-- Object field access. -/
def Json.getField : Json → String → Option Json
  | Json.obj fields, k => (fields.find? (fun f => f.1 == k)).map (fun f => f.2)
  | _, _ => none

/-- Array index access. -/
def Json.getIdx : Json → Nat → Option Json
  | Json.arr elems, i => elems.get? i
  | _, _ => none

/-- String extraction. -/
def Json.asString : Json → Option String
  | Json.str s => some s
  | _ => none

/-- Gemini response unwrap: candidates[0].content.parts[0].text. -/
def unwrapGemini (j : Json) : Option String := do
  let c ← j.getField "candidates"
  let c0 ← c.getIdx 0
  let content ← c0.getField "content"
  let parts ← content.getField "parts"
  let p0 ← parts.getIdx 0
  let t ← p0.getField "text"
  t.asString

/-- Chat-completions response unwrap (OpenAI, Grok, Mistral):
choices[0].message.content. -/
def unwrapChat (j : Json) : Option String := do
  let c ← j.getField "choices"
  let c0 ← c.getIdx 0
  let m ← c0.getField "message"
  let t ← m.getField "content"
  t.asString

/-- Claude response unwrap: content[0].text. -/
def unwrapClaude (j : Json) : Option String := do
  let c ← j.getField "content"
  let c0 ← c.getIdx 0
  let t ← c0.getField "text"
  t.asString

/-- The single chat message list carried by four of the request bodies. -/
def userMessage (promptText : String) : Json :=
  Json.arr [Json.obj [("role", Json.str "user"), ("content", Json.str promptText)]]

/-- The fetch request of callGemini (credential in the query string). -/
def geminiRequest (apiKey promptText : String) : HttpRequest :=
  { url := "https://generativelanguage.googleapis.com/v1beta/models/gemini-pro:generateContent?key="
      ++ apiKey,
    method := "POST",
    headers := [("Content-Type", "application/json")],
    body := Json.obj [("contents",
      Json.arr [Json.obj [("parts", Json.arr [Json.obj [("text", Json.str promptText)]])]])] }

/-- The fetch request of callOpenAI (bearer credential). -/
def openaiRequest (apiKey promptText : String) : HttpRequest :=
  { url := "https://api.openai.com/v1/chat/completions",
    method := "POST",
    headers := [("Authorization", "Bearer " ++ apiKey), ("Content-Type", "application/json")],
    body := Json.obj [("model", Json.str "gpt-4"), ("messages", userMessage promptText),
      ("max_tokens", Json.num "2000"), ("temperature", Json.num "0.7")] }

/-- The fetch request of callClaude (custom header credential). -/
def claudeRequest (apiKey promptText : String) : HttpRequest :=
  { url := "https://api.anthropic.com/v1/messages",
    method := "POST",
    headers := [("x-api-key", apiKey), ("Content-Type", "application/json"),
      ("anthropic-version", "2023-06-01")],
    body := Json.obj [("model", Json.str "claude-3-sonnet-20240229"),
      ("max_tokens", Json.num "2000"), ("messages", userMessage promptText)] }

/-- The fetch request of callGrok (bearer credential). -/
def grokRequest (apiKey promptText : String) : HttpRequest :=
  { url := "https://api.x.ai/v1/chat/completions",
    method := "POST",
    headers := [("Authorization", "Bearer " ++ apiKey), ("Content-Type", "application/json")],
    body := Json.obj [("messages", userMessage promptText), ("model", Json.str "grok-beta"),
      ("stream", Json.bool false), ("temperature", Json.num "0.7")] }

/-- The fetch request of callMistral (bearer credential). -/
def mistralRequest (apiKey promptText : String) : HttpRequest :=
  { url := "https://api.mistral.ai/v1/chat/completions",
    method := "POST",
    headers := [("Authorization", "Bearer " ++ apiKey), ("Content-Type", "application/json")],
    body := Json.obj [("model", Json.str "mistral-large-latest"),
      ("messages", userMessage promptText), ("max_tokens", Json.num "2000"),
      ("temperature", Json.num "0.7")] }

/-- The shape shared verbatim by the five adapters: issue the request;
a non-ok response throws the provider-labeled Error before the body is
read; an ok response is unwrapped along the provider-specific path. -/
def runCall (fetch : HttpRequest → HttpResponse) (req : HttpRequest) (errLabel : String)
    (unwrap : Json → Option String) : Except ApiError String × List HttpRequest :=
  let resp := fetch req
  if resp.ok then
    match unwrap resp.body with
    | some text => (Except.ok text, [req])
    | none => (Except.error ApiError.malformed, [req])
  else (Except.error (ApiError.thrown errLabel), [req])

/-- ScriptGeneratorAPI.callGemini. -/
def callGemini (fetch : HttpRequest → HttpResponse) (apiKey promptText : String) :
    Except ApiError String × List HttpRequest :=
  runCall fetch (geminiRequest apiKey promptText) "Erro ao gerar roteiro com Gemini" unwrapGemini

/-- ScriptGeneratorAPI.callOpenAI. -/
def callOpenAI (fetch : HttpRequest → HttpResponse) (apiKey promptText : String) :
    Except ApiError String × List HttpRequest :=
  runCall fetch (openaiRequest apiKey promptText) "Erro ao gerar roteiro com OpenAI" unwrapChat

/-- ScriptGeneratorAPI.callClaude. -/
def callClaude (fetch : HttpRequest → HttpResponse) (apiKey promptText : String) :
    Except ApiError String × List HttpRequest :=
  runCall fetch (claudeRequest apiKey promptText) "Erro ao gerar roteiro com Claude" unwrapClaude

/-- ScriptGeneratorAPI.callGrok. -/
def callGrok (fetch : HttpRequest → HttpResponse) (apiKey promptText : String) :
    Except ApiError String × List HttpRequest :=
  runCall fetch (grokRequest apiKey promptText) "Erro ao gerar roteiro com Grok" unwrapChat

/-- ScriptGeneratorAPI.callMistral. -/
def callMistral (fetch : HttpRequest → HttpResponse) (apiKey promptText : String) :
    Except ApiError String × List HttpRequest :=
  runCall fetch (mistralRequest apiKey promptText) "Erro ao gerar roteiro com Mistral" unwrapChat

/-- A provider descriptor (the shape used by both source files; the
declaring types/ai-providers.ts is not under src/). -/
structure AIProvider where
  id : String
  name : String
  icon : String
  endpoint : String
  keyName : String
  getApiKeyUrl : String
deriving DecidableEq

/-- ScriptGeneratorAPI.generateScript: build the prompt, then switch on
the provider identifier; the default branch throws the unsupported-
provider Error naming the identifier, before any request is issued. -/
def generateScript (fetch : HttpRequest → HttpResponse) (provider : AIProvider)
    (scriptData : ScriptData) (apiKey : String) :
    Except ApiError String × List HttpRequest :=
  let promptText := buildPrompt scriptData
  if provider.id = "gemini" then callGemini fetch apiKey promptText
  else if provider.id = "openai" then callOpenAI fetch apiKey promptText
  else if provider.id = "claude" then callClaude fetch apiKey promptText
  else if provider.id = "grok" then callGrok fetch apiKey promptText
  else if provider.id = "mistral" then callMistral fetch apiKey promptText
  else (Except.error (ApiError.thrown ("Provider " ++ provider.id ++ " não suportado")), [])

/-- A toast notification raised by the UI caller. -/
structure UIToast where
  title : String
  description : String
  destructive : Bool
deriving DecidableEq

/-- Outcome of one invocation of the UI generateScript handler. -/
structure UIOutcome where
  generatedScript : Option String
  showAPIModal : Bool
  isLoading : Bool
  toasts : List UIToast
  requests : List HttpRequest

/-- ScriptGenerator.generateScript (the UI caller): missing credential
opens the key modal; missing required fields raise the destructive
required-fields toast; otherwise the dispatcher runs, a success stores
the script and toasts success, and any caught failure raises the
destructive check-your-key toast naming the provider; the loading flag
is cleared in the finally block on every path. -/
def uiGenerateScript (store : String → Option String) (fetch : HttpRequest → HttpResponse)
    (provider : AIProvider) (scriptData : ScriptData) : UIOutcome :=
  match store provider.keyName with
  | none =>
    { generatedScript := none, showAPIModal := true, isLoading := false,
      toasts := [], requests := [] }
  | some apiKey =>
    if scriptData.topic = "" ∨ scriptData.duration = "" ∨ scriptData.style = "" then
      { generatedScript := none, showAPIModal := false, isLoading := false,
        toasts := [{ title := "Campos obrigatórios",
                     description := "Preencha pelo menos o tópico, duração e estilo do vídeo.",
                     destructive := true }], requests := [] }
    else
      match generateScript fetch provider scriptData apiKey with
      | (Except.ok script, reqs) =>
        { generatedScript := some script, showAPIModal := false, isLoading := false,
          toasts := [{ title := "Roteiro gerado!",
                       description := "Roteiro criado com sucesso usando " ++ provider.name ++ ".",
                       destructive := false }], requests := reqs }
      | (Except.error _, reqs) =>
        { generatedScript := none, showAPIModal := false, isLoading := false,
          toasts := [{ title := "Erro ao gerar roteiro",
                       description := "Verifique sua API key do " ++ provider.name
                         ++ " e tente novamente.",
                       destructive := true }], requests := reqs }

/-- Modelled from the spec: the text-provider registry entry selected
when the user dispatches to Mistral. The registry (AI_PROVIDERS in
types/ai-providers.ts) is not under src/; the identifier mistral is
fixed by the dispatch switch in ScriptGeneratorAPI.ts, and the display
name Mistral by the spec (its Mistral-labeled example and the UI copy
listing the five providers). The remaining fields are not observed by
any claim. -/
def MISTRAL_PROVIDER : AIProvider :=
  { id := "mistral", name := "Mistral", icon := "", endpoint := "https://api.mistral.ai/v1",
    keyName := "mistral_api_key", getApiKeyUrl := "" }

/-- Boolean discriminator for network-call events. -/
def ImgEvent.isNet : ImgEvent → Bool
  | ImgEvent.netCall _ _ => true
  | _ => false

/-- Invariant carried by the extractTopics accumulator: the seen list
mirrors the topics list (the JS Set always holds exactly the pushed
topics), the topics are pairwise distinct, and every pushed topic is a
trimmed string longer than three characters. -/
def AccInv (acc : List (List Char) × List (List Char)) : Prop :=
  acc.1 = acc.2 ∧ acc.1.Nodup ∧ ∀ t ∈ acc.1, 3 < t.length ∧ jsTrim t = t

/-! ## Helper lemmas -/

theorem startsWithL_iff (hay pat : List Char) : startsWithL hay pat = true ↔ pat <+: hay := by
  induction hay generalizing pat with
  | nil =>
    cases pat with
    | nil => simp [startsWithL]
    | cons a ps => simp [startsWithL]
  | cons b hs ih =>
    cases pat with
    | nil => simp [startsWithL]
    | cons a ps =>
      simp only [startsWithL, Bool.and_eq_true, beq_iff_eq, ih, List.cons_prefix_cons]

theorem hasSubstr_iff (hay pat : List Char) : hasSubstr hay pat = true ↔ pat <:+: hay := by
  induction hay with
  | nil =>
    cases pat <;> simp [hasSubstr, List.isEmpty]
  | cons b hs ih =>
    simp only [hasSubstr, Bool.or_eq_true, startsWithL_iff, ih, List.infix_cons_iff]

theorem containsStr_rfl (s : String) : containsStr s s := by
  unfold containsStr
  exact (hasSubstr_iff _ _).mpr (List.infix_rfl)

theorem containsStr_left {a t : String} (b : String) (h : containsStr a t) :
    containsStr (a ++ b) t := by
  unfold containsStr at h ⊢
  rw [hasSubstr_iff] at h ⊢
  rw [String.data_append]
  exact h.trans (List.prefix_append a.data b.data).isInfix

theorem containsStr_right (a : String) {b t : String} (h : containsStr b t) :
    containsStr (a ++ b) t := by
  unfold containsStr at h ⊢
  rw [hasSubstr_iff] at h ⊢
  rw [String.data_append]
  exact h.trans (List.suffix_append a.data b.data).isInfix


theorem dropWhile_dropWhile (p : Char → Bool) (l : List Char) :
    (l.dropWhile p).dropWhile p = l.dropWhile p := by
  induction l with
  | nil => rfl
  | cons c t ih =>
    cases hc : p c with
    | true => simp [List.dropWhile_cons, hc, ih]
    | false => simp [List.dropWhile_cons, hc]

theorem dropWhile_head_false (p : Char → Bool) (l : List Char) :
    ∀ c t, l.dropWhile p = c :: t → p c = false := by
  induction l with
  | nil => intro c t h; simp at h
  | cons a rest ih =>
    intro c t h
    cases ha : p a with
    | true =>
      rw [List.dropWhile_cons, ha] at h
      simp only [if_true] at h
      exact ih c t h
    | false =>
      rw [List.dropWhile_cons, ha] at h
      simp only [Bool.false_eq_true, if_false] at h
      cases h
      exact ha

theorem dropWhile_eq_self_of_head {p : Char → Bool} {c : Char} {t : List Char}
    (h : p c = false) : (c :: t).dropWhile p = c :: t := by
  simp [List.dropWhile_cons, h]

theorem jsTrim_noLead (l : List Char) : (jsTrim l).dropWhile jsWs = jsTrim l := by
  have hsuf : (l.dropWhile jsWs).reverse.dropWhile jsWs <:+ (l.dropWhile jsWs).reverse :=
    List.dropWhile_suffix jsWs
  have hpre : jsTrim l <+: l.dropWhile jsWs := by
    have h := List.reverse_prefix.mpr hsuf
    rw [List.reverse_reverse] at h
    exact h
  cases hc : jsTrim l with
  | nil => simp
  | cons c t =>
    rw [hc] at hpre
    obtain ⟨rest, hA⟩ := hpre
    have hclast : jsWs c = false := by
      apply dropWhile_head_false jsWs l c (t ++ rest)
      rw [← hA]
      simp
    exact dropWhile_eq_self_of_head hclast

theorem jsTrim_idem (l : List Char) : jsTrim (jsTrim l) = jsTrim l := by
  have h1 : jsTrim (jsTrim l) = (((jsTrim l).dropWhile jsWs).reverse.dropWhile jsWs).reverse :=
    rfl
  rw [h1, jsTrim_noLead]
  have h2 : (jsTrim l).reverse = (l.dropWhile jsWs).reverse.dropWhile jsWs := by
    show (((l.dropWhile jsWs).reverse.dropWhile jsWs).reverse).reverse = _
    rw [List.reverse_reverse]
  rw [h2, dropWhile_dropWhile]
  rfl

theorem jsTrim_nil_of_ws {l : List Char} (h : ∀ c ∈ l, jsWs c = true) : jsTrim l = [] := by
  unfold jsTrim
  have h1 : l.dropWhile jsWs = [] := List.dropWhile_eq_nil_iff.mpr (fun x hx => h x hx)
  rw [h1]
  rfl

theorem AccInv_init : AccInv ([], []) := by
  refine ⟨rfl, List.nodup_nil, ?_⟩
  intro t ht
  simp at ht

theorem addTopic_inv {acc : List (List Char) × List (List Char)} (h : AccInv acc)
    {t : List Char} (ht : ∃ u, t = jsTrim u) : AccInv (addTopic acc t) := by
  obtain ⟨heq, hnd, hprop⟩ := h
  unfold addTopic
  by_cases hc : 3 < t.length ∧ t ∉ acc.2
  · rw [if_pos hc]
    obtain ⟨u, hu⟩ := ht
    have htn : t ∉ acc.1 := by rw [heq]; exact hc.2
    refine ⟨by rw [heq], ?_, ?_⟩
    · simp [List.nodup_append, hnd, htn]
    · intro x hx
      rw [List.mem_append] at hx
      cases hx with
      | inl h1 => exact hprop x h1
      | inr h2 =>
        simp at h2
        subst h2
        exact ⟨hc.1, by rw [hu, jsTrim_idem]⟩
  · rw [if_neg hc]
    exact ⟨heq, hnd, hprop⟩

theorem foldl_inv {α β : Type} (P : α → Prop) (f : α → β → α)
    (hf : ∀ a b, P a → P (f a b)) : ∀ (l : List β) (a : α), P a → P (l.foldl f a) := by
  intro l
  induction l with
  | nil => intro a ha; exact ha
  | cons b t ih => intro a ha; exact ih (f a b) (hf a b ha)

theorem foldl_const {α β : Type} (f : α → β → α) (l : List β) (a : α)
    (h : ∀ b ∈ l, f a b = a) : l.foldl f a = a := by
  induction l with
  | nil => rfl
  | cons b t ih =>
    rw [List.foldl_cons, h b (List.mem_cons_self b t)]
    exact ih (fun x hx => h x (List.mem_cons_of_mem b hx))

theorem processLine_inv {acc : List (List Char) × List (List Char)} (raw : List Char)
    (h : AccInv acc) : AccInv (processLine acc raw) := by
  simp only [processLine]
  by_cases hline : jsTrim raw = []
  · rw [if_pos hline]; exact h
  · rw [if_neg hline]
    cases headingRest (jsTrim raw) with
    | some r => exact addTopic_inv h ⟨r, rfl⟩
    | none =>
      cases numberedRest (jsTrim raw) with
      | some r => exact addTopic_inv h ⟨r, rfl⟩
      | none =>
        cases keywordRest (jsTrim raw) with
        | some r => exact addTopic_inv h ⟨r, rfl⟩
        | none => exact h

theorem processLine_ws {acc : List (List Char) × List (List Char)} {raw : List Char}
    (h : ∀ c ∈ raw, jsWs c = true) : processLine acc raw = acc := by
  simp [processLine, jsTrim_nil_of_ws h]

theorem extractTopicsL_inv (script : List Char) :
    (extractTopicsL script).Nodup ∧
      ∀ t ∈ extractTopicsL script, 3 < t.length ∧ jsTrim t = t := by
  have hbase : AccInv ((jsLines script).foldl processLine ([], [])) :=
    foldl_inv AccInv processLine (fun a b ha => processLine_inv b ha) _ _ AccInv_init
  have hacc2 : AccInv (if ((jsLines script).foldl processLine ([], [])).1 = [] then
      ((((splitParas script).map jsTrim).filter (fun p => !p.isEmpty)).take 6).foldl
        fallbackAdd ((jsLines script).foldl processLine ([], []))
    else ((jsLines script).foldl processLine ([], []))) := by
    by_cases hc : ((jsLines script).foldl processLine ([], [])).1 = []
    · rw [if_pos hc]
      exact foldl_inv AccInv fallbackAdd
        (fun a p ha => addTopic_inv ha ⟨_, rfl⟩) _ _ hbase
    · rw [if_neg hc]; exact hbase
  obtain ⟨-, hnd, hprop⟩ := hacc2
  constructor
  · exact hnd.sublist (List.take_sublist 20 _)
  · intro t ht
    exact hprop t (List.mem_of_mem_take ht)

theorem consHead_chars {a : Char} {ps : List (List Char)} :
    ∀ p ∈ consHead a ps, ∀ c ∈ p, c = a ∨ ∃ q ∈ ps, c ∈ q := by
  cases ps with
  | nil =>
    intro p hp c hc
    simp [consHead] at hp
    subst hp
    simp at hc
    exact Or.inl hc
  | cons q qs =>
    intro p hp c hc
    simp only [consHead, List.mem_cons] at hp
    cases hp with
    | inl h =>
      subst h
      rcases List.mem_cons.mp hc with h1 | h2
      · exact Or.inl h1
      · exact Or.inr ⟨q, List.mem_cons_self q qs, h2⟩
    | inr h => exact Or.inr ⟨p, List.mem_cons_of_mem q h, hc⟩

theorem splitOnNl_chars : ∀ (l : List Char), ∀ p ∈ splitOnNl l, ∀ c ∈ p, c ∈ l := by
  intro l
  induction l with
  | nil =>
    intro p hp c hc
    simp [splitOnNl] at hp
    subst hp
    simp at hc
  | cons a t ih =>
    intro p hp c hc
    cases hb : (a == '\n') with
    | true =>
      rw [splitOnNl, if_pos hb] at hp
      rcases List.mem_cons.mp hp with h1 | h2
      · subst h1; simp at hc
      · exact List.mem_cons_of_mem a (ih p h2 c hc)
    | false =>
      rw [splitOnNl, if_neg (by simp [hb])] at hp
      rcases consHead_chars p hp c hc with h1 | ⟨q, hq, hcq⟩
      · rw [h1]; exact List.mem_cons_self a t
      · exact List.mem_cons_of_mem a (ih q hq c hcq)

theorem dropTrailingCR_chars {p : List Char} : ∀ c ∈ dropTrailingCR p, c ∈ p := by
  intro c hc
  unfold dropTrailingCR at hc
  split at hc
  · exact (List.dropLast_sublist p).subset hc
  · exact hc

theorem splitParas_chars : ∀ (l : List Char), ∀ p ∈ splitParas l, ∀ c ∈ p, c ∈ l := by
  intro l
  induction l using splitParas.induct with
  | case1 =>
    intro p hp c hc
    simp [splitParas] at hp
    subst hp
    simp at hc
  | case2 a rest hb j hj ih =>
    intro p hp c hc
    rw [splitParas] at hp
    rw [if_pos hb, hj] at hp
    rcases List.mem_cons.mp hp with h1 | h2
    · subst h1; simp at hc
    · exact List.mem_cons_of_mem a (List.drop_subset _ _ (ih p h2 c hc))
  | case3 a rest hb hj ih =>
    intro p hp c hc
    rw [splitParas] at hp
    rw [if_pos hb, hj] at hp
    rcases consHead_chars p hp c hc with h1 | ⟨q, hq, hcq⟩
    · rw [h1]
      have : a = '\n' := by simpa using hb
      rw [this]
      exact List.mem_cons_self _ _
    · exact List.mem_cons_of_mem a (ih q hq c hcq)
  | case4 a rest hb ih =>
    intro p hp c hc
    rw [splitParas] at hp
    rw [if_neg (by simp [hb])] at hp
    rcases consHead_chars p hp c hc with h1 | ⟨q, hq, hcq⟩
    · rw [h1]; exact List.mem_cons_self a rest
    · exact List.mem_cons_of_mem a (ih q hq c hcq)

theorem extractTopics_ws {s : String} (h : ∀ c ∈ s.data, jsWs c = true) :
    extractTopics s = [] := by
  unfold extractTopics
  by_cases hs : s = ""
  · rw [if_pos hs]
  · rw [if_neg hs]
    have hlines : ∀ raw ∈ jsLines s.data, ∀ c ∈ raw, jsWs c = true := by
      intro raw hraw c hc
      unfold jsLines at hraw
      obtain ⟨p, hp, hpeq⟩ := List.mem_map.mp hraw
      subst hpeq
      exact h c (splitOnNl_chars s.data p hp c (dropTrailingCR_chars c hc))
    have hfold : (jsLines s.data).foldl processLine ([], []) = ([], []) :=
      foldl_const processLine (jsLines s.data) ([], [])
        (fun raw hraw => processLine_ws (hlines raw hraw))
    have hparas : (((splitParas s.data).map jsTrim).filter (fun p => !p.isEmpty)) = [] := by
      rw [List.filter_eq_nil_iff]
      intro a ha
      obtain ⟨p, hp, hpeq⟩ := List.mem_map.mp ha
      have : jsTrim p = [] :=
        jsTrim_nil_of_ws (fun c hc => h c (splitParas_chars s.data p hp c hc))
      subst hpeq
      simp [this]
    unfold extractTopicsL
    rw [hfold]
    simp [hparas, fallbackAdd]

theorem nodup_id_inj {l : List TopicItem} (hnd : (l.map TopicItem.id).Nodup)
    {a b : TopicItem} (ha : a ∈ l) (hb : b ∈ l) (hab : a.id = b.id) : a = b := by
  induction l with
  | nil => simp at ha
  | cons x t ih =>
    rw [List.map_cons, List.nodup_cons] at hnd
    rcases List.mem_cons.mp ha with ha1 | ha2
    · rcases List.mem_cons.mp hb with hb1 | hb2
      · rw [ha1, hb1]
      · subst ha1
        exact absurd (hab ▸ List.mem_map_of_mem TopicItem.id hb2) hnd.1
    · rcases List.mem_cons.mp hb with hb1 | hb2
      · subst hb1
        exact absurd (hab ▸ List.mem_map_of_mem TopicItem.id ha2) hnd.1
      · exact ih hnd.2 ha2 hb2

theorem find_id_self {l : List TopicItem} (hnd : (l.map TopicItem.id).Nodup)
    {it : TopicItem} (hmem : it ∈ l) :
    l.find? (fun x => x.id == it.id) = some it := by
  induction l with
  | nil => simp at hmem
  | cons a t ih =>
    rw [List.find?_cons]
    cases hpa : (a.id == it.id) with
    | true =>
      have : a = it := nodup_id_inj hnd (List.mem_cons_self a t) hmem (by simpa using hpa)
      rw [this]
    | false =>
      have hne : it ≠ a := fun he => by simp [he] at hpa
      have hmt : it ∈ t := by
        rcases List.mem_cons.mp hmem with h1 | h2
        · exact absurd h1 hne
        · exact h2
      rw [List.map_cons, List.nodup_cons] at hnd
      exact ih hnd.2 hmt

theorem ensureKey_some {store : String → Option String} {key : String}
    (hkey : store "leonardo_api_key" = some key) :
    ensureKey store ImgProvider.leonardo = (some key, []) := by
  simp [ensureKey, keyNameOf, hkey]

theorem generateOneOn_kling {store : String → Option String}
    {oracle : String → String → Except String String} {snapshot state : List TopicItem}
    {it : TopicItem} (hfind : snapshot.find? (fun x => x.id == it.id) = some it) :
    generateOneOn store oracle ImgProvider.kling snapshot state it.id =
      (state, [ImgEvent.toast "Kling AI" klingToastOne true]) := by
  unfold generateOneOn
  rw [hfind]
  rfl

theorem generateOneOn_run_ok {store : String → Option String}
    {oracle : String → String → Except String String} {snapshot state : List TopicItem}
    {it : TopicItem} {key url : String}
    (hfind : snapshot.find? (fun x => x.id == it.id) = some it)
    (hkey : store "leonardo_api_key" = some key)
    (hor : oracle key it.prompt = Except.ok url) :
    generateOneOn store oracle ImgProvider.leonardo snapshot state it.id =
      (finishGen (startGen state it.id) it.id (Except.ok url),
       [ImgEvent.netCall key it.prompt, ImgEvent.toast "Imagem gerada" it.title false]) := by
  unfold generateOneOn
  rw [hfind]
  dsimp only
  rw [if_neg (by decide), ensureKey_some hkey]
  dsimp only
  rw [hor]

theorem generateOneOn_run_err {store : String → Option String}
    {oracle : String → String → Except String String} {snapshot state : List TopicItem}
    {it : TopicItem} {key e : String}
    (hfind : snapshot.find? (fun x => x.id == it.id) = some it)
    (hkey : store "leonardo_api_key" = some key)
    (hor : oracle key it.prompt = Except.error e) :
    generateOneOn store oracle ImgProvider.leonardo snapshot state it.id =
      (finishGen (startGen state it.id) it.id (Except.error e),
       [ImgEvent.netCall key it.prompt,
        ImgEvent.toast "Falha ao gerar imagem" (errMsg e) true]) := by
  unfold generateOneOn
  rw [hfind]
  dsimp only
  rw [if_neg (by decide), ensureKey_some hkey]
  dsimp only
  rw [hor]

theorem generateAll_run {store : String → Option String}
    {oracle : String → String → Except String String} {items : List TopicItem} {key : String}
    (hkey : store "leonardo_api_key" = some key) :
    generateAll store oracle ImgProvider.leonardo items =
      generateAllGo store oracle items items items := by
  unfold generateAll
  rw [if_neg (by decide), ensureKey_some hkey]

theorem generateAllGo_net {store : String → Option String}
    {oracle : String → String → Except String String} {snapshot : List TopicItem} {key : String}
    (hnd : (snapshot.map TopicItem.id).Nodup)
    (hkey : store "leonardo_api_key" = some key) :
    ∀ (pending state : List TopicItem), (∀ x ∈ pending, x ∈ snapshot) →
      (generateAllGo store oracle snapshot pending state).2.filter ImgEvent.isNet =
        (pending.filter (fun x => x.imageUrl.isNone)).map
          (fun x => ImgEvent.netCall key x.prompt) := by
  intro pending
  induction pending with
  | nil => intro state hsub; rfl
  | cons it rest ih =>
    intro state hsub
    have hmem : it ∈ snapshot := hsub it (List.mem_cons_self it rest)
    have hfind := find_id_self hnd hmem
    have hsub2 : ∀ x ∈ rest, x ∈ snapshot :=
      fun x hx => hsub x (List.mem_cons_of_mem it hx)
    cases hurl : it.imageUrl with
    | some u =>
      have hsome : it.imageUrl.isSome = true := by rw [hurl]; rfl
      rw [generateAllGo, if_pos hsome, List.filter_cons]
      have hnone : (it.imageUrl.isNone : Bool) = false := by rw [hurl]; rfl
      rw [hnone]
      simp only [Bool.false_eq_true, if_false]
      exact ih state hsub2
    | none =>
      have hsome : ¬ (it.imageUrl.isSome = true) := by rw [hurl]; simp
      rw [generateAllGo, if_neg hsome, List.filter_cons]
      have hnone : (it.imageUrl.isNone : Bool) = true := by rw [hurl]; rfl
      rw [hnone]
      simp only [if_true]
      cases horc : oracle key it.prompt with
      | ok url =>
        rw [generateOneOn_run_ok hfind hkey horc]
        rw [List.filter_append]
        rw [ih _ hsub2]
        rfl
      | error e =>
        rw [generateOneOn_run_err hfind hkey horc]
        rw [List.filter_append]
        rw [ih _ hsub2]
        rfl

/-! ## Claim theorems -/

set_option maxRecDepth 40000 in
theorem sectionLabels_in_tail : ∀ lbl ∈ sectionLabels, containsStr promptTail lbl := by
  decide

set_option maxRecDepth 100000 in
/-- C1 counterexample: at the ScriptData record with topic Space, duration
5-10, style tutorial, styleKeywords zwq, language zzlang and empty audience
and additionalInfo (fields in declaration order), the built prompt contains
neither the supplied styleKeywords nor the supplied language, nor the
literal substitutes general and none that the claim names for the empty
fields. -/
theorem c1_counterexample :
    ¬ containsStr (buildPrompt ⟨"Space", "5-10", "tutorial", "zwq", "zzlang", "", ""⟩) "zwq" ∧
    ¬ containsStr (buildPrompt ⟨"Space", "5-10", "tutorial", "zwq", "zzlang", "", ""⟩)
        "zzlang" ∧
    ¬ containsStr (buildPrompt ⟨"Space", "5-10", "tutorial", "zwq", "zzlang", "", ""⟩)
        "general" ∧
    ¬ containsStr (buildPrompt ⟨"Space", "5-10", "tutorial", "zwq", "zzlang", "", ""⟩)
        "none" := by
  refine ⟨?_, ?_, ?_, ?_⟩ <;> decide

/-- C1 (amended): for every ScriptData with non-empty topic, duration and
style, buildPrompt is a pure function whose result contains topic, duration
and style verbatim, the audience verbatim when non-empty and the literal
Geral when empty, the additionalInfo verbatim when non-empty and the literal
Nenhuma when empty, and the six section labels of the template; styleKeywords
and language are not embedded in the prompt. -/
theorem c1_prompt_builder (sd : ScriptData) (ht : sd.topic ≠ "") (hd : sd.duration ≠ "")
    (hs : sd.style ≠ "") :
    containsStr (buildPrompt sd) sd.topic ∧
    containsStr (buildPrompt sd) sd.duration ∧
    containsStr (buildPrompt sd) sd.style ∧
    (sd.audience ≠ "" → containsStr (buildPrompt sd) sd.audience) ∧
    (sd.audience = "" → containsStr (buildPrompt sd) "Geral") ∧
    (sd.additionalInfo ≠ "" → containsStr (buildPrompt sd) sd.additionalInfo) ∧
    (sd.additionalInfo = "" → containsStr (buildPrompt sd) "Nenhuma") ∧
    ∀ lbl ∈ sectionLabels, containsStr (buildPrompt sd) lbl := by
  unfold buildPrompt
  refine ⟨?_, ?_, ?_, ?_, ?_, ?_, ?_, ?_⟩
  · exact containsStr_left _ (containsStr_left _ (containsStr_left _ (containsStr_left _
      (containsStr_left _ (containsStr_left _ (containsStr_left _ (containsStr_left _
      (containsStr_left _ (containsStr_right _ (containsStr_rfl _))))))))))
  · exact containsStr_left _ (containsStr_left _ (containsStr_left _ (containsStr_left _
      (containsStr_left _ (containsStr_left _ (containsStr_left _
      (containsStr_right _ (containsStr_rfl _))))))))
  · exact containsStr_left _ (containsStr_left _ (containsStr_left _ (containsStr_left _
      (containsStr_left _ (containsStr_right _ (containsStr_rfl _))))))
  · intro h
    rw [show jsOr sd.audience "Geral" = sd.audience by unfold jsOr; rw [if_neg h]]
    exact containsStr_left _ (containsStr_left _ (containsStr_left _
      (containsStr_right _ (containsStr_rfl _))))
  · intro h
    rw [show jsOr sd.audience "Geral" = "Geral" by unfold jsOr; rw [if_pos h]]
    exact containsStr_left _ (containsStr_left _ (containsStr_left _
      (containsStr_right _ (containsStr_rfl _))))
  · intro h
    rw [show jsOr sd.additionalInfo "Nenhuma" = sd.additionalInfo by
      unfold jsOr; rw [if_neg h]]
    exact containsStr_left _ (containsStr_right _ (containsStr_rfl _))
  · intro h
    rw [show jsOr sd.additionalInfo "Nenhuma" = "Nenhuma" by unfold jsOr; rw [if_pos h]]
    exact containsStr_left _ (containsStr_right _ (containsStr_rfl _))
  · intro lbl hlbl
    exact containsStr_right _ (sectionLabels_in_tail lbl hlbl)

/-- C1 witness: the amended theorem applied at a concrete record (topic
Space travel, duration 5-10, style tutorial, styleKeywords kw, language en,
empty audience, additionalInfo Notas). -/
theorem c1_prompt_builder_witness :
    containsStr (buildPrompt ⟨"Space travel", "5-10", "tutorial", "kw", "en", "", "Notas"⟩)
      "Space travel" ∧
    containsStr (buildPrompt ⟨"Space travel", "5-10", "tutorial", "kw", "en", "", "Notas"⟩)
      "Geral" ∧
    containsStr (buildPrompt ⟨"Space travel", "5-10", "tutorial", "kw", "en", "", "Notas"⟩)
      "Hook inicial" := by
  have h := c1_prompt_builder ⟨"Space travel", "5-10", "tutorial", "kw", "en", "", "Notas"⟩
    (by decide) (by decide) (by decide)
  exact ⟨h.1, h.2.2.2.2.1 rfl, h.2.2.2.2.2.2.2 "Hook inicial" (by decide)⟩

theorem extractTopicsL_len (script : List Char) : (extractTopicsL script).length ≤ 20 := by
  unfold extractTopicsL
  exact List.length_take_le 20 _

/-- C7: topic extraction is a function of the script text (the embedding is
a pure function, so identical input gives identical output); for every
script the result has at most twenty entries and no duplicate titles. -/
theorem c7_extract_bounded_nodup (s : String) :
    (extractTopics s).length ≤ 20 ∧ (extractTopics s).Nodup := by
  unfold extractTopics
  by_cases hs : s = ""
  · rw [if_pos hs]
    exact ⟨by simp, List.nodup_nil⟩
  · rw [if_neg hs]
    obtain ⟨hnd, -⟩ := extractTopicsL_inv s.data
    constructor
    · rw [List.length_map]
      exact extractTopicsL_len s.data
    · exact hnd.map (fun a b hab => congrArg String.data hab)

/-- C8: extractTopics on the example script of three numbered lines returns
exactly the three titles in order. -/
theorem c8_extract_example :
    extractTopics "1. Intro\n2. Main Point\n3. Outro" = ["Intro", "Main Point", "Outro"] := by
  decide

/-- C9: every title returned by extractTopics is already trimmed and longer
than three characters (short extracts are silently dropped), and a script
consisting only of whitespace characters yields the empty list. -/
theorem c9_title_length_invariant :
    (∀ (s : String), ∀ t ∈ extractTopics s, 3 < t.length ∧ jsTrimStr t = t) ∧
    (∀ (s : String), (∀ c ∈ s.data, jsWs c = true) → extractTopics s = []) := by
  constructor
  · intro s t ht
    unfold extractTopics at ht
    by_cases hs : s = ""
    · rw [if_pos hs] at ht
      simp at ht
    · rw [if_neg hs] at ht
      obtain ⟨t0, ht0, hmk⟩ := List.mem_map.mp ht
      obtain ⟨-, hprop⟩ := extractTopicsL_inv s.data
      obtain ⟨hlen, htrim⟩ := hprop t0 ht0
      subst hmk
      refine ⟨hlen, ?_⟩
      show String.mk (jsTrim (String.mk t0).data) = String.mk t0
      rw [show (String.mk t0).data = t0 from rfl, htrim]
  · intro s h
    exact extractTopics_ws h

/-- C9 witness: the invariant applied to the extraction example, and the
whitespace case applied to a blank script. -/
theorem c9_title_length_invariant_witness :
    (3 < ("Intro" : String).length ∧ jsTrimStr "Intro" = "Intro") ∧
    extractTopics "  \n \t " = [] := by
  constructor
  · exact c9_title_length_invariant.1 "1. Intro\n2. Main Point\n3. Outro" "Intro" (by decide)
  · exact c9_title_length_invariant.2 "  \n \t " (by decide)

/-- C10: starting a generation attempt sets the loading flag and clears the
error field in the same update; finishing an attempt clears the loading flag
in both outcomes; and in every reachable item state, an item whose loading
flag is set has no error recorded. -/
theorem c10_loading_error_invariant :
    (∀ (s : List TopicItem) (id : String), ∀ x ∈ startGen s id, x.id = id →
        x.loading = true ∧ x.error = none) ∧
    (∀ (s : List TopicItem) (id : String) (r : Except String String),
        ∀ x ∈ finishGen s id r, x.id = id → x.loading = false) ∧
    (∀ (s : List TopicItem), Reach s → ∀ x ∈ s, x.loading = true → x.error = none) := by
  refine ⟨?_, ?_, ?_⟩
  · intro s id x hx hid
    obtain ⟨y, hy, hyx⟩ := List.mem_map.mp hx
    by_cases h : y.id = id
    · rw [if_pos h] at hyx
      subst hyx
      exact ⟨rfl, rfl⟩
    · rw [if_neg h] at hyx
      subst hyx
      exact absurd hid h
  · intro s id r x hx hid
    obtain ⟨y, hy, hyx⟩ := List.mem_map.mp hx
    by_cases h : y.id = id
    · rw [if_pos h] at hyx
      cases r with
      | ok url => subst hyx; rfl
      | error e => subst hyx; rfl
    · rw [if_neg h] at hyx
      subst hyx
      exact absurd hid h
  · intro s hreach
    induction hreach with
    | init topics =>
      intro x hx hl
      obtain ⟨p, hp, hpx⟩ := List.mem_map.mp hx
      subst hpx
      simp at hl
    | edit s id p _ ih =>
      intro x hx hl
      obtain ⟨y, hy, hyx⟩ := List.mem_map.mp hx
      by_cases h : y.id = id
      · rw [if_pos h] at hyx
        subst hyx
        exact ih y hy hl
      · rw [if_neg h] at hyx
        subst hyx
        exact ih y hy hl
    | start s id _ ih =>
      intro x hx hl
      obtain ⟨y, hy, hyx⟩ := List.mem_map.mp hx
      by_cases h : y.id = id
      · rw [if_pos h] at hyx
        subst hyx
        rfl
      · rw [if_neg h] at hyx
        subst hyx
        exact ih y hy hl
    | finish s id r _ ih =>
      intro x hx hl
      obtain ⟨y, hy, hyx⟩ := List.mem_map.mp hx
      by_cases h : y.id = id
      · rw [if_pos h] at hyx
        cases r with
        | ok url => subst hyx; simp at hl
        | error e => subst hyx; simp at hl
      · rw [if_neg h] at hyx
        subst hyx
        exact ih y hy hl

/-- C10 witness: the invariant applied to the state reached by initializing
one topic and starting its generation attempt: the started item carries the
loading flag and no error. -/
theorem c10_loading_error_invariant_witness :
    (⟨"topic-0", "Intro topic", "Intro topic", none, true, none⟩ : TopicItem) ∈
        startGen (initItems ["Intro topic"]) "topic-0" ∧
    (⟨"topic-0", "Intro topic", "Intro topic", none, true, none⟩ : TopicItem).error = none := by
  refine ⟨by decide, ?_⟩
  exact c10_loading_error_invariant.2.2 (startGen (initItems ["Intro topic"]) "topic-0")
    (Reach.start _ _ (Reach.init ["Intro topic"]))
    ⟨"topic-0", "Intro topic", "Intro topic", none, true, none⟩ (by decide) rfl

/-- C2 counterexample: invoking generateOne with the stub provider selected
on an initialized topic leaves every item exactly as it was, so the item
does not transition to a has-error state and its error field stays absent. -/
theorem c2_counterexample :
    (generateOne (fun _ => none) (fun _ _ => Except.error "x") ImgProvider.kling
        (initItems ["Intro topic"]) "topic-0").1 = initItems ["Intro topic"] ∧
    ((generateOne (fun _ => none) (fun _ _ => Except.error "x") ImgProvider.kling
        (initItems ["Intro topic"]) "topic-0").1.map TopicItem.error) = [none] := by
  refine ⟨?_, ?_⟩ <;> decide

/-- C2 (amended): with the stub provider selected, generateOne on an
existing item emits only the destructive coming-soon toast and returns: the
item list is unchanged (no error recorded, no loading flag set) and no
network call is attempted. -/
theorem c2_kling_stub (store : String → Option String)
    (oracle : String → String → Except String String) (items : List TopicItem) (id : String)
    (hx : ∃ it ∈ items, it.id = id) :
    generateOne store oracle ImgProvider.kling items id =
      (items, [ImgEvent.toast "Kling AI" klingToastOne true]) := by
  have hsome : (items.find? (fun x => x.id == id)).isSome := by
    rw [List.find?_isSome]
    obtain ⟨it, hmem, hid⟩ := hx
    exact ⟨it, hmem, by simp [hid]⟩
  obtain ⟨y, hy⟩ := Option.isSome_iff_exists.mp hsome
  unfold generateOne generateOneOn
  rw [hy]
  rfl

/-- C2 witness: the amended theorem at a one-item state. -/
theorem c2_kling_stub_witness :
    generateOne (fun _ => none) (fun _ _ => Except.error "x") ImgProvider.kling
      (initItems ["Intro topic"]) "topic-0" =
      (initItems ["Intro topic"], [ImgEvent.toast "Kling AI" klingToastOne true]) :=
  c2_kling_stub _ _ _ _ (by decide)

/-- C4 counterexample: re-running generateOne on an item that already holds
an image URL, with the dispatch failing, ends with the item holding both the
stale image URL and the new error message. -/
theorem c4_counterexample :
    ((generateOne (fun k => if k = "leonardo_api_key" then some "sk" else none)
        (fun _ _ => Except.error "boom") ImgProvider.leonardo
        [⟨"topic-0", "T", "P", some "old.png", false, none⟩] "topic-0").1.map
      (fun x => (x.imageUrl, x.error))) = [(some "old.png", some "boom")] := by
  decide

/-- C4 (amended): for an item that holds no image URL before the attempt, a
completed generateOne ends with the item holding either an image URL (and no
error) or an error message (and no image URL), never both, with the loading
flag cleared; a dispatch failure is captured into the error field rather
than escaping generateOne. -/
theorem c4_outcome_exclusive (store : String → Option String)
    (oracle : String → String → Except String String) (items : List TopicItem)
    (it : TopicItem) (key : String)
    (hnd : (items.map TopicItem.id).Nodup) (hmem : it ∈ items) (hurl : it.imageUrl = none)
    (hkey : store "leonardo_api_key" = some key) :
    ∀ x ∈ (generateOne store oracle ImgProvider.leonardo items it.id).1, x.id = it.id →
      (((∃ u, x.imageUrl = some u) ∧ x.error = none) ∨
        (x.imageUrl = none ∧ ∃ e, x.error = some e)) ∧ x.loading = false := by
  have hfind := find_id_self hnd hmem
  intro x hx hid
  unfold generateOne at hx
  cases horc : oracle key it.prompt with
  | ok url =>
    rw [generateOneOn_run_ok hfind hkey horc] at hx
    obtain ⟨y, hy, hyx⟩ := List.mem_map.mp hx
    obtain ⟨z, hz, hzy⟩ := List.mem_map.mp hy
    by_cases h : z.id = it.id
    · rw [if_pos h] at hzy
      subst hzy
      rw [if_pos h] at hyx
      subst hyx
      exact ⟨Or.inl ⟨⟨url, rfl⟩, rfl⟩, rfl⟩
    · rw [if_neg h] at hzy
      subst hzy
      rw [if_neg h] at hyx
      subst hyx
      exact absurd hid h
  | error e =>
    rw [generateOneOn_run_err hfind hkey horc] at hx
    obtain ⟨y, hy, hyx⟩ := List.mem_map.mp hx
    obtain ⟨z, hz, hzy⟩ := List.mem_map.mp hy
    by_cases h : z.id = it.id
    · rw [if_pos h] at hzy
      subst hzy
      rw [if_pos h] at hyx
      subst hyx
      have hz_it : z = it := nodup_id_inj hnd hz hmem h
      subst hz_it
      exact ⟨Or.inr ⟨hurl, ⟨errMsg e, rfl⟩⟩, rfl⟩
    · rw [if_neg h] at hzy
      subst hzy
      rw [if_neg h] at hyx
      subst hyx
      exact absurd hid h

/-- C4 witness: the amended theorem at a one-item state with a failing
dispatch, instantiated at the resulting item. -/
theorem c4_outcome_exclusive_witness :
    (((∃ u, (⟨"topic-0", "Intro topic", "Intro topic", none, false, some "boom"⟩ :
          TopicItem).imageUrl = some u) ∧
        (⟨"topic-0", "Intro topic", "Intro topic", none, false, some "boom"⟩ :
          TopicItem).error = none) ∨
      ((⟨"topic-0", "Intro topic", "Intro topic", none, false, some "boom"⟩ :
          TopicItem).imageUrl = none ∧
        ∃ e, (⟨"topic-0", "Intro topic", "Intro topic", none, false, some "boom"⟩ :
          TopicItem).error = some e)) ∧
      (⟨"topic-0", "Intro topic", "Intro topic", none, false, some "boom"⟩ :
        TopicItem).loading = false := by
  exact c4_outcome_exclusive (fun k => if k = "leonardo_api_key" then some "sk" else none)
    (fun _ _ => Except.error "boom") (initItems ["Intro topic"])
    ⟨"topic-0", "Intro topic", "Intro topic", none, false, none⟩ "sk"
    (by decide) (by decide) rfl rfl
    ⟨"topic-0", "Intro topic", "Intro topic", none, false, some "boom"⟩ (by decide) rfl

/-- C3: with the primary provider selected and a credential present, one
invocation of generateAll issues exactly one image dispatch for each item
lacking an image URL, in list order (the model is sequential by
construction: each call completes before the next starts), and none for
items already holding one; in particular re-invocation dispatches nothing
for items satisfied earlier. -/
theorem c3_generateAll_once (store : String → Option String)
    (oracle : String → String → Except String String) (items : List TopicItem) (key : String)
    (hnd : (items.map TopicItem.id).Nodup) (hkey : store "leonardo_api_key" = some key) :
    (generateAll store oracle ImgProvider.leonardo items).2.filter ImgEvent.isNet =
      (items.filter (fun x => x.imageUrl.isNone)).map
        (fun x => ImgEvent.netCall key x.prompt) := by
  rw [generateAll_run hkey]
  exact generateAllGo_net hnd hkey items items (fun x hx => hx)

/-- C3 witness: a two-item state whose first item already holds an image
URL: the only dispatch is for the second item. -/
theorem c3_generateAll_once_witness :
    (generateAll (fun k => if k = "leonardo_api_key" then some "sk" else none)
        (fun _ _ => Except.ok "img.png") ImgProvider.leonardo
        [⟨"topic-0", "A", "prompt A", some "done.png", false, none⟩,
         ⟨"topic-1", "B", "prompt B", none, false, none⟩]).2.filter ImgEvent.isNet =
      [ImgEvent.netCall "sk" "prompt B"] := by
  have h := c3_generateAll_once
    (fun k => if k = "leonardo_api_key" then some "sk" else none)
    (fun _ _ => Except.ok "img.png")
    [⟨"topic-0", "A", "prompt A", some "done.png", false, none⟩,
     ⟨"topic-1", "B", "prompt B", none, false, none⟩] "sk" (by decide) rfl
  rw [h]
  decide

theorem runCall_requests (fetch : HttpRequest → HttpResponse) (req : HttpRequest)
    (errLabel : String) (unwrap : Json → Option String) :
    (runCall fetch req errLabel unwrap).2 = [req] := by
  unfold runCall
  by_cases h : (fetch req).ok = true
  · rw [if_pos h]
    cases unwrap (fetch req).body <;> rfl
  · rw [if_neg h]

/-- C5: for a provider whose identifier is none of the five registered ones,
generateScript fails immediately with the unsupported-provider error naming
that identifier and issues no request; for each registered identifier the
adapter selection is total and deterministic, issuing exactly the one
request of that adapter. -/
theorem c5_dispatch_total (fetch : HttpRequest → HttpResponse) (p : AIProvider)
    (sd : ScriptData) (key : String) :
    (p.id ∉ (["gemini", "openai", "claude", "grok", "mistral"] : List String) →
      generateScript fetch p sd key =
        (Except.error (ApiError.thrown ("Provider " ++ p.id ++ " não suportado")), [])) ∧
    (p.id = "gemini" →
      (generateScript fetch p sd key).2 = [geminiRequest key (buildPrompt sd)]) ∧
    (p.id = "openai" →
      (generateScript fetch p sd key).2 = [openaiRequest key (buildPrompt sd)]) ∧
    (p.id = "claude" →
      (generateScript fetch p sd key).2 = [claudeRequest key (buildPrompt sd)]) ∧
    (p.id = "grok" →
      (generateScript fetch p sd key).2 = [grokRequest key (buildPrompt sd)]) ∧
    (p.id = "mistral" →
      (generateScript fetch p sd key).2 = [mistralRequest key (buildPrompt sd)]) := by
  refine ⟨?_, ?_, ?_, ?_, ?_, ?_⟩
  · intro h
    have h1 : p.id ≠ "gemini" := fun hc => h (by simp [hc])
    have h2 : p.id ≠ "openai" := fun hc => h (by simp [hc])
    have h3 : p.id ≠ "claude" := fun hc => h (by simp [hc])
    have h4 : p.id ≠ "grok" := fun hc => h (by simp [hc])
    have h5 : p.id ≠ "mistral" := fun hc => h (by simp [hc])
    unfold generateScript
    rw [if_neg h1, if_neg h2, if_neg h3, if_neg h4, if_neg h5]
  · intro h
    unfold generateScript
    rw [if_pos h]
    exact runCall_requests fetch _ _ _
  · intro h
    unfold generateScript
    rw [if_neg (by simp [h]), if_pos h]
    exact runCall_requests fetch _ _ _
  · intro h
    unfold generateScript
    rw [if_neg (by simp [h]), if_neg (by simp [h]), if_pos h]
    exact runCall_requests fetch _ _ _
  · intro h
    unfold generateScript
    rw [if_neg (by simp [h]), if_neg (by simp [h]), if_neg (by simp [h]), if_pos h]
    exact runCall_requests fetch _ _ _
  · intro h
    unfold generateScript
    rw [if_neg (by simp [h]), if_neg (by simp [h]), if_neg (by simp [h]),
      if_neg (by simp [h]), if_pos h]
    exact runCall_requests fetch _ _ _

/-- C5 witness: the dispatcher at the unsupported identifier unknown-id
fails with the message naming it and zero requests, and at mistral issues
exactly the Mistral request. -/
theorem c5_dispatch_total_witness :
    generateScript (fun _ => ⟨false, Json.null⟩) ⟨"unknown-id", "X", "", "", "k", ""⟩
        ⟨"T", "5-10", "tutorial", "", "", "", ""⟩ "key" =
      (Except.error (ApiError.thrown "Provider unknown-id não suportado"), []) ∧
    (generateScript (fun _ => ⟨false, Json.null⟩) ⟨"mistral", "Mistral", "", "", "k", ""⟩
        ⟨"T", "5-10", "tutorial", "", "", "", ""⟩ "key").2 =
      [mistralRequest "key" (buildPrompt ⟨"T", "5-10", "tutorial", "", "", "", ""⟩)] := by
  constructor
  · exact (c5_dispatch_total (fun _ => ⟨false, Json.null⟩)
      ⟨"unknown-id", "X", "", "", "k", ""⟩ ⟨"T", "5-10", "tutorial", "", "", "", ""⟩
      "key").1 (by decide)
  · exact (c5_dispatch_total (fun _ => ⟨false, Json.null⟩)
      ⟨"mistral", "Mistral", "", "", "k", ""⟩ ⟨"T", "5-10", "tutorial", "", "", "", ""⟩
      "key").2.2.2.2.2 rfl

/-- C6: for every dispatch to a registered text-generation provider, a
response whose ok flag is false makes the dispatcher fail with the error
naming that provider, after exactly one request, with no retry and no
partial result; in particular a Mistral dispatch receiving such a response
fails with the Mistral-labeled error and the UI caller surfaces a single
destructive toast naming Mistral, storing no script. -/
theorem c6_provider_labeled_failure (store : String → Option String)
    (fetch : HttpRequest → HttpResponse) (p : AIProvider) (sd : ScriptData) (key : String) :
    (p.id = "gemini" → (fetch (geminiRequest key (buildPrompt sd))).ok = false →
      generateScript fetch p sd key =
        (Except.error (ApiError.thrown "Erro ao gerar roteiro com Gemini"),
         [geminiRequest key (buildPrompt sd)])) ∧
    (p.id = "openai" → (fetch (openaiRequest key (buildPrompt sd))).ok = false →
      generateScript fetch p sd key =
        (Except.error (ApiError.thrown "Erro ao gerar roteiro com OpenAI"),
         [openaiRequest key (buildPrompt sd)])) ∧
    (p.id = "claude" → (fetch (claudeRequest key (buildPrompt sd))).ok = false →
      generateScript fetch p sd key =
        (Except.error (ApiError.thrown "Erro ao gerar roteiro com Claude"),
         [claudeRequest key (buildPrompt sd)])) ∧
    (p.id = "grok" → (fetch (grokRequest key (buildPrompt sd))).ok = false →
      generateScript fetch p sd key =
        (Except.error (ApiError.thrown "Erro ao gerar roteiro com Grok"),
         [grokRequest key (buildPrompt sd)])) ∧
    (p.id = "mistral" → (fetch (mistralRequest key (buildPrompt sd))).ok = false →
      generateScript fetch p sd key =
        (Except.error (ApiError.thrown "Erro ao gerar roteiro com Mistral"),
         [mistralRequest key (buildPrompt sd)])) ∧
    (p.id = "mistral" → p.name = "Mistral" → store p.keyName = some key →
      sd.topic ≠ "" → sd.duration ≠ "" → sd.style ≠ "" →
      (fetch (mistralRequest key (buildPrompt sd))).ok = false →
      (uiGenerateScript store fetch p sd).toasts =
        [⟨"Erro ao gerar roteiro", "Verifique sua API key do Mistral e tente novamente.",
          true⟩] ∧
      (uiGenerateScript store fetch p sd).requests =
        [mistralRequest key (buildPrompt sd)] ∧
      (uiGenerateScript store fetch p sd).generatedScript = none) := by
  have hmist : p.id = "mistral" → (fetch (mistralRequest key (buildPrompt sd))).ok = false →
      generateScript fetch p sd key =
        (Except.error (ApiError.thrown "Erro ao gerar roteiro com Mistral"),
         [mistralRequest key (buildPrompt sd)]) := by
    intro h hr
    unfold generateScript
    rw [if_neg (by simp [h]), if_neg (by simp [h]), if_neg (by simp [h]),
      if_neg (by simp [h]), if_pos h]
    unfold callMistral runCall
    rw [if_neg (by simp [hr])]
  refine ⟨?_, ?_, ?_, ?_, hmist, ?_⟩
  · intro h hr
    unfold generateScript
    rw [if_pos h]
    unfold callGemini runCall
    rw [if_neg (by simp [hr])]
  · intro h hr
    unfold generateScript
    rw [if_neg (by simp [h]), if_pos h]
    unfold callOpenAI runCall
    rw [if_neg (by simp [hr])]
  · intro h hr
    unfold generateScript
    rw [if_neg (by simp [h]), if_neg (by simp [h]), if_pos h]
    unfold callClaude runCall
    rw [if_neg (by simp [hr])]
  · intro h hr
    unfold generateScript
    rw [if_neg (by simp [h]), if_neg (by simp [h]), if_neg (by simp [h]), if_pos h]
    unfold callGrok runCall
    rw [if_neg (by simp [hr])]
  · intro hid hname hkey ht hd hs hr
    have hgen := hmist hid hr
    have hui : uiGenerateScript store fetch p sd =
        ⟨none, false, false,
         [⟨"Erro ao gerar roteiro", "Verifique sua API key do Mistral e tente novamente.",
           true⟩],
         [mistralRequest key (buildPrompt sd)]⟩ := by
      unfold uiGenerateScript
      rw [hkey]
      dsimp only
      rw [if_neg (by simp [ht, hd, hs]), hgen]
      dsimp only
      rw [hname]
      rfl
    exact ⟨by rw [hui], by rw [hui], by rw [hui]⟩

/-- C6 witness: the theorem applied with a fetch answering every request
with a non-ok response, at a concrete Gemini registry record and at the
modelled Mistral registry entry with its credential in the store. -/
theorem c6_provider_labeled_failure_witness :
    generateScript (fun _ => ⟨false, Json.null⟩) ⟨"gemini", "Gemini", "", "", "k", ""⟩
        ⟨"T", "5-10", "tutorial", "", "", "", ""⟩ "sk" =
      (Except.error (ApiError.thrown "Erro ao gerar roteiro com Gemini"),
       [geminiRequest "sk" (buildPrompt ⟨"T", "5-10", "tutorial", "", "", "", ""⟩)]) ∧
    generateScript (fun _ => ⟨false, Json.null⟩) MISTRAL_PROVIDER
        ⟨"T", "5-10", "tutorial", "", "", "", ""⟩ "sk" =
      (Except.error (ApiError.thrown "Erro ao gerar roteiro com Mistral"),
       [mistralRequest "sk" (buildPrompt ⟨"T", "5-10", "tutorial", "", "", "", ""⟩)]) ∧
    (uiGenerateScript (fun k => if k = "mistral_api_key" then some "sk" else none)
        (fun _ => ⟨false, Json.null⟩) MISTRAL_PROVIDER
        ⟨"T", "5-10", "tutorial", "", "", "", ""⟩).toasts =
      [⟨"Erro ao gerar roteiro", "Verifique sua API key do Mistral e tente novamente.",
        true⟩] := by
  have hg := c6_provider_labeled_failure
    (fun k => if k = "mistral_api_key" then some "sk" else none)
    (fun _ => ⟨false, Json.null⟩) ⟨"gemini", "Gemini", "", "", "k", ""⟩
    ⟨"T", "5-10", "tutorial", "", "", "", ""⟩ "sk"
  have hm := c6_provider_labeled_failure
    (fun k => if k = "mistral_api_key" then some "sk" else none)
    (fun _ => ⟨false, Json.null⟩) MISTRAL_PROVIDER
    ⟨"T", "5-10", "tutorial", "", "", "", ""⟩ "sk"
  exact ⟨hg.1 rfl rfl, hm.2.2.2.2.1 rfl rfl,
    (hm.2.2.2.2.2 rfl rfl rfl (by decide) (by decide) (by decide) rfl).1⟩
